import Mathlib

/-!
Verification development for the MuCamera signaling hub.

Shallow embedding of the core components, translated from the source:
  - turn_credentials.py : TURN REST credential minter (SHA-1, HMAC, base64
    implemented concretely over byte lists; machine words are Nat mod 2^32)
  - redis_client.py     : presence-store client with in-memory fallback,
    failure modeled with an Except-valued backend
  - websocket_handler.py: connection manager and the device/viewer message
    routers, modeled as pure state transformers emitting an effect list
  - main.py             : the tunneled-HTTP proxy frontend endpoint
  - device-agent/agent.py: reconnect loop backoff of the device agent

Time is modeled as integer unix seconds; JSON (de)serialization between the
client and the store is treated as transparent.
-/

namespace MuCam

/-- Truncate a natural number to a 32-bit machine word. -/
def w32 (x : Nat) : Nat := x % 4294967296

/-- Rotate a 32-bit word left by n bits. -/
def rotl (n x : Nat) : Nat := w32 ((x <<< n) ||| (x >>> (32 - n)))

/-- Bitwise complement of a 32-bit word. -/
def compl32 (x : Nat) : Nat := 4294967295 ^^^ x

/-- SHA-1 padding: append 0x80, zero bytes to 56 mod 64, then the bit length
as eight big-endian bytes. -/
def sha1pad (msg : List Nat) : List Nat :=
  let len := msg.length
  let zeros := (120 - (len + 1) % 64) % 64
  msg ++ [128] ++ List.replicate zeros 0 ++
    ((List.range 8).map (fun i => (8 * len) >>> (8 * (7 - i)) % 256))

/-- Split a byte list into 64-byte chunks (the input length is a multiple
of 64 after padding). -/
def chunks64 (l : List Nat) : List (List Nat) :=
  (List.range ((l.length + 63) / 64)).map (fun i => ((l.drop (64 * i)).take 64))

/-- The 16 initial 32-bit big-endian words of a 64-byte chunk. -/
def chunkWords (chunk : List Nat) : Array Nat :=
  ((List.range 16).map (fun j =>
    chunk.getD (4 * j) 0 * 16777216 + chunk.getD (4 * j + 1) 0 * 65536 +
    chunk.getD (4 * j + 2) 0 * 256 + chunk.getD (4 * j + 3) 0)).toArray

/-- Extend 16 schedule words to 80. -/
def sha1schedule (ws : Array Nat) : Array Nat :=
  (List.range 64).foldl (fun arr k =>
    arr.push (rotl 1 ((arr.getD (k + 13) 0) ^^^ (arr.getD (k + 8) 0) ^^^
      (arr.getD (k + 2) 0) ^^^ (arr.getD k 0)))) ws

/-- SHA-1 round function. -/
def sha1f (t b c d : Nat) : Nat :=
  if t < 20 then (b &&& c) ||| ((compl32 b) &&& d)
  else if t < 40 then b ^^^ c ^^^ d
  else if t < 60 then (b &&& c) ||| (b &&& d) ||| (c &&& d)
  else b ^^^ c ^^^ d

/-- SHA-1 round constants. -/
def sha1k (t : Nat) : Nat :=
  if t < 20 then 1518500249
  else if t < 40 then 1859775393
  else if t < 60 then 2400959708
  else 3395469782

/-- One SHA-1 compression step over a 64-byte chunk. -/
def sha1compress (h : Nat × Nat × Nat × Nat × Nat) (chunk : List Nat) :
    Nat × Nat × Nat × Nat × Nat :=
  let ws := sha1schedule (chunkWords chunk)
  let (h0, h1, h2, h3, h4) := h
  let step := fun (st : Nat × Nat × Nat × Nat × Nat) (t : Nat) =>
    let (a, b, c, d, e) := st
    (w32 (rotl 5 a + sha1f t b c d + e + sha1k t + ws.getD t 0),
      a, rotl 30 b, c, d)
  let (a, b, c, d, e) := (List.range 80).foldl step (h0, h1, h2, h3, h4)
  (w32 (h0 + a), w32 (h1 + b), w32 (h2 + c), w32 (h3 + d), w32 (h4 + e))

/-- SHA-1 digest of a byte list, as 20 bytes. -/
def sha1 (msg : List Nat) : List Nat :=
  let (h0, h1, h2, h3, h4) :=
    (chunks64 (sha1pad msg)).foldl sha1compress
      (1732584193, 4023233417, 2562383102, 271733878, 3285377520)
  [h0, h1, h2, h3, h4].flatMap (fun w =>
    [w >>> 24 % 256, w >>> 16 % 256, w >>> 8 % 256, w % 256])

/-- HMAC-SHA1 with block size 64. -/
def hmacSha1 (key msg : List Nat) : List Nat :=
  let k0 := if key.length > 64 then sha1 key else key
  let k1 := k0 ++ List.replicate (64 - k0.length) 0
  let ipadded := k1.map (fun b => b ^^^ 54)
  let opadded := k1.map (fun b => b ^^^ 92)
  sha1 (opadded ++ sha1 (ipadded ++ msg))

/-- The base64 alphabet. -/
def b64alphabet : List Char :=
  "ABCDEFGHIJKLMNOPQRSTUVWXYZabcdefghijklmnopqrstuvwxyz0123456789+/".toList

/-- Character for a 6-bit group. -/
def b64char (n : Nat) : Char := b64alphabet.getD n 'A'

/-- Base64-encode a byte list (core recursion over 3-byte groups). -/
def b64encodeCore : List Nat → List Char
  | [] => []
  | [a] => [b64char (a >>> 2), b64char ((a &&& 3) <<< 4), '=', '=']
  | [a, b] => [b64char (a >>> 2), b64char (((a &&& 3) <<< 4) ||| (b >>> 4)),
      b64char ((b &&& 15) <<< 2), '=']
  | a :: b :: c :: rest =>
      b64char (a >>> 2) :: b64char (((a &&& 3) <<< 4) ||| (b >>> 4)) ::
      b64char (((b &&& 15) <<< 2) ||| (c >>> 6)) :: b64char (c &&& 63) ::
      b64encodeCore rest

/-- Base64-encode a byte list to a string. -/
def b64encode (bs : List Nat) : String := String.mk (b64encodeCore bs)

/-- Value of a base64 alphabet character. -/
def b64value (c : Char) : Option Nat :=
  b64alphabet.indexOf? c

/-- Decode 6-bit groups back to bytes. -/
def b64decodeCore : List Nat → List Nat
  | a :: b :: c :: d :: rest =>
      ((a <<< 2) ||| (b >>> 4)) :: (((b &&& 15) <<< 4) ||| (c >>> 2)) ::
      (((c &&& 3) <<< 6) ||| d) :: b64decodeCore rest
  | [a, b] => [(a <<< 2) ||| (b >>> 4)]
  | [a, b, c] => [(a <<< 2) ||| (b >>> 4), ((b &&& 15) <<< 4) ||| (c >>> 2)]
  | _ => []

/-- Base64-decode a string to a byte list, ignoring padding characters. -/
def b64decode (s : String) : List Nat :=
  b64decodeCore (s.toList.filterMap b64value)

/-- UTF-8 encoding of a single character. -/
def utf8Bytes (c : Char) : List Nat :=
  let n := c.toNat
  if n < 128 then [n]
  else if n < 2048 then [192 + n / 64, 128 + n % 64]
  else if n < 65536 then
    [224 + n / 4096, 128 + (n / 64) % 64, 128 + n % 64]
  else
    [240 + n / 262144, 128 + (n / 4096) % 64, 128 + (n / 64) % 64,
     128 + n % 64]

/-- UTF-8 bytes of a string. -/
def strBytes (s : String) : List Nat := s.data.flatMap utf8Bytes

/-! Settings, from config.py (defaults; environment overrides are out of
scope for this development). -/

def TURN_HOST : String := "coturn"
def TURN_PUBLIC_HOST : String := "localhost"
def TURN_PORT : Nat := 3478
def TURN_SECRET : String := "mumucam_turn_secret_key"
def TURN_TTL : Nat := 86400

/-! The credential minter, from turn_credentials.py. The hidden time input
is made explicit as a parameter now : Nat, the floor of the unix clock. -/

/-- Result dictionary of generate_turn_credentials. -/
structure TurnCredentials where
  urls : List String
  username : String
  credential : String
  credentialType : String
deriving DecidableEq, Repr

/-- Translation of generate_turn_credentials from turn_credentials.py. -/
def generate_turn_credentials (now : Nat) (username : String)
    (use_public_host : Bool) : TurnCredentials :=
  let timestamp := now + TURN_TTL
  let turn_username := toString timestamp ++ ":" ++ username
  let turn_password :=
    b64encode (hmacSha1 (strBytes TURN_SECRET) (strBytes turn_username))
  let turn_host := if use_public_host then TURN_PUBLIC_HOST else TURN_HOST
  { urls := ["turn:" ++ turn_host ++ ":" ++ toString TURN_PORT ++ "?transport=udp",
             "turn:" ++ turn_host ++ ":" ++ toString TURN_PORT ++ "?transport=tcp"],
    username := turn_username,
    credential := turn_password,
    credentialType := "password" }

/-- An entry of the ICE server list: the STUN entries carry a single url
string, the TURN entry carries the minted credentials. -/
inductive IceServer where
  | stun (url : String)
  | turn (cfg : TurnCredentials)
deriving DecidableEq, Repr

/-- Translation of get_ice_servers from turn_credentials.py. -/
def get_ice_servers (now : Nat) (username : String)
    (use_public_host : Bool) : List IceServer :=
  [IceServer.stun "stun:stun.l.google.com:19302",
   IceServer.stun "stun:stun1.l.google.com:19302",
   IceServer.turn (generate_turn_credentials now username use_public_host)]

/-! Protocol messages. The source passes free-form JSON dicts; the model
uses a record of the optional payload fields the routed messages carry, a
field being none when the key is absent from the dict. -/

/-- Payload of a protocol message. -/
structure Payload where
  rid : Option String := none
  status : Option Nat := none
  session_id : Option String := none
  sdp : Option String := none
  candidate : Option String := none
  device_id : Option String := none
  user_id : Option String := none
  headers : List (String × String) := []
  body_b64 : Option String := none
  reason : Option String := none
  message : Option String := none
  agent_version : Option String := none
  go2rtc_http : Option String := none
  server_time : Option Nat := none
  method : Option String := none
  path : Option String := none
  timeout_ms : Option Nat := none
  streams : Option String := none
  ice_servers : List IceServer := []
deriving DecidableEq, Repr

/-- A protocol message envelope: type, optional request_id, timestamp
(integer seconds standing in for the ISO string), payload. -/
structure Msg where
  type : String
  request_id : Option String := none
  ts : Nat := 0
  payload : Payload := {}
deriving DecidableEq, Repr

/-- Observable effects of a handler: sends through the registry, presence
store operations, and log lines (the print calls of the source). -/
inductive Effect where
  | sendDevice (device_id : String) (msg : Msg)
  | sendViewer (user_id : String) (msg : Msg)
  | redisHset (name key value : String)
  | redisHdel (name : String) (keys : List String)
  | redisSetex (key : String) (ttl : Nat) (value : Payload)
  | redisDelete (key : String)
  | closeChan (chan : Nat) (code : Nat) (reason : String)
  | logLine (s : String)
deriving DecidableEq, Repr

/-- True for a close effect. -/
def Effect.isClose : Effect → Bool
  | .closeChan _ _ _ => true
  | _ => false

/-! Persistence rows, from models.py (the fields the hub mutates). -/

/-- A row of the devices table. -/
structure DeviceRow where
  id : Nat
  device_id : String
  is_online : Bool := false
  last_seen : Option Nat := none
deriving DecidableEq, Repr

/-- A row of the watch_sessions table. -/
structure WatchSessionRow where
  session_id : String
  user_id : Nat
  device_id : Nat
  status : String := "pending"
  ended_at : Option Nat := none
  ended_reason : Option String := none
deriving DecidableEq, Repr

/-- The persistence store: devices and watch sessions. -/
structure DB where
  devices : List DeviceRow
  sessions : List WatchSessionRow
deriving DecidableEq, Repr

/-- Lookup of a device row by its device_id string; an absent key (SQL
comparison against NULL on a non-nullable column) matches no row. -/
def DB.findDevice? (db : DB) (device_id : Option String) : Option DeviceRow :=
  match device_id with
  | none => none
  | some d => db.devices.find? (fun r => r.device_id == d)

/-- Lookup of a device row by primary key. -/
def DB.findDeviceById? (db : DB) (id : Nat) : Option DeviceRow :=
  db.devices.find? (fun r => r.id == id)

/-- Lookup of a watch session by its session_id string. -/
def DB.findSession? (db : DB) (session_id : Option String) :
    Option WatchSessionRow :=
  match session_id with
  | none => none
  | some s => db.sessions.find? (fun r => r.session_id == s)

/-- Update every device row matching a device_id string. -/
def DB.updateDevice (db : DB) (device_id : String)
    (f : DeviceRow → DeviceRow) : DB :=
  { db with devices :=
      db.devices.map (fun r => if r.device_id == device_id then f r else r) }

/-- Update every session row matching a session_id string. -/
def DB.updateSession (db : DB) (session_id : String)
    (f : WatchSessionRow → WatchSessionRow) : DB :=
  { db with sessions :=
      db.sessions.map (fun r => if r.session_id == session_id then f r else r) }

/-! The ConnectionManager of websocket_handler.py. Its dictionaries are
modeled as functions to Option, matching python dict semantics (at most one
value per key by construction); a live channel is named by a Nat handle. -/

/-- State of the ConnectionManager. -/
structure ConnState where
  device_connections : String → Option Nat
  viewer_connections : String → Option Nat
  device_heartbeats : String → Option Nat
  viewer_heartbeats : String → Option Nat

/-- The empty manager state. -/
def ConnState.empty : ConnState :=
  ⟨fun _ => none, fun _ => none, fun _ => none, fun _ => none⟩

/-- Point update of a string-keyed map. -/
def updMap (m : String → Option Nat) (k : String) (v : Nat) :
    String → Option Nat :=
  fun x => if x = k then some v else m x

/-- Point removal from a string-keyed map. -/
def delMap (m : String → Option Nat) (k : String) : String → Option Nat :=
  fun x => if x = k then none else m x

/-- Translation of ConnectionManager.send_to_device: the message is sent
only when the registry holds a channel for the device; send errors are
swallowed. -/
def send_to_device (cm : ConnState) (device_id : String) (msg : Msg) :
    List Effect :=
  match cm.device_connections device_id with
  | some _ => [Effect.sendDevice device_id msg]
  | none => []

/-- Translation of ConnectionManager.send_to_viewer. -/
def send_to_viewer (cm : ConnState) (user_id : String) (msg : Msg) :
    List Effect :=
  match cm.viewer_connections user_id with
  | some _ => [Effect.sendViewer user_id msg]
  | none => []

/-- Translation of ConnectionManager.is_device_online. -/
def is_device_online (cm : ConnState) (device_id : String) : Bool :=
  (cm.device_connections device_id).isSome

/-- Translation of ConnectionManager.connect_device: overwrite the registry
entry and the heartbeat, mark the device online with last_seen now in the
persistence store, and record presence in the store hash devices:online. -/
def connect_device (cm : ConnState) (db : DB) (device_id : String)
    (websocket : Nat) (now : Nat) : ConnState × DB × List Effect :=
  let cm1 := { cm with
    device_connections := updMap cm.device_connections device_id websocket,
    device_heartbeats := updMap cm.device_heartbeats device_id now }
  let db1 := db.updateDevice device_id
    (fun r => { r with is_online := true, last_seen := some now })
  (cm1, db1, [Effect.redisHset "devices:online" device_id (toString now)])

/-- Translation of ConnectionManager.connect_viewer. -/
def connect_viewer (cm : ConnState) (user_id : String) (websocket : Nat)
    (now : Nat) : ConnState :=
  { cm with
    viewer_connections := updMap cm.viewer_connections user_id websocket,
    viewer_heartbeats := updMap cm.viewer_heartbeats user_id now }

/-- Translation of ConnectionManager.disconnect_device: drop the registry
entries, mark the device offline with last_seen now, remove the presence
hash field, then end every session of this device whose status is active
(reason device_disconnected, ended_at now) and notify each such session
viewer with watch_ended when a viewer channel is registered. -/
def disconnect_device (cm : ConnState) (db : DB) (device_id : String)
    (now : Nat) : ConnState × DB × List Effect :=
  let cm1 := { cm with
    device_connections := delMap cm.device_connections device_id,
    device_heartbeats := delMap cm.device_heartbeats device_id }
  let db1 := db.updateDevice device_id
    (fun r => { r with is_online := false, last_seen := some now })
  match db1.findDevice? (some device_id) with
  | some drow =>
      let targets := db1.sessions.filter
        (fun s => s.device_id == drow.id && s.status == "active")
      let db2 := { db1 with sessions := db1.sessions.map (fun s =>
          if s.device_id == drow.id && s.status == "active" then
            { s with status := "ended", ended_at := some now,
                     ended_reason := some "device_disconnected" }
          else s) }
      let notifications := targets.flatMap (fun s =>
        match cm1.viewer_connections (toString s.user_id) with
        | some _ => send_to_viewer cm1 (toString s.user_id)
            { type := "watch_ended", ts := now,
              payload := { session_id := some s.session_id,
                           reason := some "device_disconnected" } }
        | none => [])
      (cm1, db2,
        Effect.redisHdel "devices:online" [device_id] :: notifications)
  | none =>
      (cm1, db1, [Effect.redisHdel "devices:online" [device_id]])

/-! The presence-store client, from redis_client.py. The external redis
connection is modeled by a Backend whose primitives may fail (Except);
json.dumps and json.loads between the client and the store are treated as
transparent, so values travel as plain strings. The single in-memory python
dict is split into its scalar entries and its hash-prefixed entries, which
the source keeps disjoint via the hash: key prefix. -/

/-- Primitives of the underlying redis connection; any of them may raise. -/
structure Backend where
  bset : String → String → Option Nat → Except String Unit
  bget : String → Except String (Option String)
  bdel : String → Except String Unit
  bexists : String → Except String Nat
  bhset : String → String → String → Except String Unit
  bhget : String → String → Except String (Option String)
  bhdel : String → List String → Except String Unit
  bhgetall : String → Except String (List (String × String))

/-- State of the RedisClient wrapper: the optional live connection and the
in-memory fallback stores. -/
structure RedisClient where
  redis : Option Backend
  memory : List (String × String)
  memoryHashes : List (String × List (String × String))

/-- The attribute names the RedisClient class defines (python dynamic
dispatch: calling any other attribute raises AttributeError). -/
def RedisClient.methodNames : List String :=
  ["connect", "disconnect", "set", "get", "delete", "exists",
   "hset", "hget", "hdel", "hgetall"]

/-- Association-list lookup. -/
def alistGet {α : Type} (m : List (String × α)) (k : String) : Option α :=
  (m.find? (fun p => p.1 == k)).map (fun p => p.2)

/-- Association-list insert-or-replace. -/
def alistPut {α : Type} (m : List (String × α)) (k : String) (v : α) :
    List (String × α) :=
  if (m.find? (fun p => p.1 == k)).isSome then
    m.map (fun p => if p.1 == k then (k, v) else p)
  else m ++ [(k, v)]

/-- Association-list removal. -/
def alistDel {α : Type} (m : List (String × α)) (k : String) :
    List (String × α) :=
  m.filter (fun p => p.1 != k)

/-- Translation of RedisClient.set: true on success, false when the
backend raises; the in-memory fallback ignores the expiration. -/
def RedisClient.set (c : RedisClient) (key value : String)
    (ex : Option Nat := none) : Bool × RedisClient :=
  match c.redis with
  | some b =>
      match b.bset key value ex with
      | .ok _ => (true, c)
      | .error _ => (false, c)
  | none => (true, { c with memory := alistPut c.memory key value })

/-- Translation of RedisClient.get: the stored value, or none when the key
is absent or the backend raises. -/
def RedisClient.get (c : RedisClient) (key : String) : Option String :=
  match c.redis with
  | some b =>
      match b.bget key with
      | .ok v => v
      | .error _ => none
  | none => alistGet c.memory key

/-- Translation of RedisClient.delete: true on success, false when the
backend raises. -/
def RedisClient.delete (c : RedisClient) (key : String) : Bool × RedisClient :=
  match c.redis with
  | some b =>
      match b.bdel key with
      | .ok _ => (true, c)
      | .error _ => (false, c)
  | none => (true, { c with memory := alistDel c.memory key })

/-- Translation of RedisClient.exists (keyExists here, exists being a Lean
keyword): false when the key is absent or the backend raises. -/
def RedisClient.keyExists (c : RedisClient) (key : String) : Bool :=
  match c.redis with
  | some b =>
      match b.bexists key with
      | .ok n => n > 0
      | .error _ => false
  | none => (alistGet c.memory key).isSome

/-- Translation of RedisClient.hset: true on success, false when the
backend raises. -/
def RedisClient.hset (c : RedisClient) (name key value : String) :
    Bool × RedisClient :=
  match c.redis with
  | some b =>
      match b.bhset name key value with
      | .ok _ => (true, c)
      | .error _ => (false, c)
  | none =>
      let hashKey := "hash:" ++ name
      let fields := (alistGet c.memoryHashes hashKey).getD []
      (true, { c with
        memoryHashes := alistPut c.memoryHashes hashKey (alistPut fields key value) })

/-- Translation of RedisClient.hget: the field value, or none when absent
or the backend raises. -/
def RedisClient.hget (c : RedisClient) (name key : String) : Option String :=
  match c.redis with
  | some b =>
      match b.bhget name key with
      | .ok v => v
      | .error _ => none
  | none =>
      match alistGet c.memoryHashes ("hash:" ++ name) with
      | some fields => alistGet fields key
      | none => none

/-- Translation of RedisClient.hdel: true on success, false when the
backend raises. -/
def RedisClient.hdel (c : RedisClient) (name : String) (keys : List String) :
    Bool × RedisClient :=
  match c.redis with
  | some b =>
      match b.bhdel name keys with
      | .ok _ => (true, c)
      | .error _ => (false, c)
  | none =>
      let hashKey := "hash:" ++ name
      match alistGet c.memoryHashes hashKey with
      | some fields =>
          (true, { c with
            memoryHashes := alistPut c.memoryHashes hashKey
              (keys.foldl alistDel fields) })
      | none => (true, c)

/-- Translation of RedisClient.hgetall: all fields, or the empty mapping
when the hash is absent or the backend raises. -/
def RedisClient.hgetall (c : RedisClient) (name : String) :
    List (String × String) :=
  match c.redis with
  | some b =>
      match b.bhgetall name with
      | .ok l => l
      | .error _ => []
  | none => (alistGet c.memoryHashes ("hash:" ++ name)).getD []

/-! The device message router, from websocket_handler.py
(handle_device_message), and the surrounding websocket loop from main.py
(device_websocket). A python exception escaping the handler is modeled as
Except.error; the loop in main.py catches it and disconnects the device. -/

/-- A python runtime error surfaced by a handler. -/
inductive PyErr where
  | attributeError (attr : String)
deriving DecidableEq, Repr

/-- Translation of handle_device_message. The proxy_http_resp branch calls
redis_client.setex, an attribute the RedisClient class does not define, so
the dynamic dispatch is modeled by a membership test against
RedisClient.methodNames and raises AttributeError when absent. -/
def handle_device_message (cm : ConnState) (db : DB) (device_id : String)
    (msg : Msg) (now : Nat) : Except PyErr (ConnState × DB × List Effect) :=
  let payload := msg.payload
  if msg.type == "hello" then
    let storeEffs :=
      match payload.go2rtc_http with
      | some url => [Effect.redisHset ("device:go2rtc:" ++ device_id) "http_url" url]
      | none => []
    let response : Msg :=
      { type := "hello_ack", request_id := msg.request_id, ts := now,
        payload := { device_id := some device_id, server_time := some now,
                     agent_version := payload.agent_version } }
    .ok (cm, db, storeEffs ++ send_to_device cm device_id response)
  else if msg.type == "heartbeat" then
    let cm1 := { cm with
      device_heartbeats := updMap cm.device_heartbeats device_id now }
    let response : Msg :=
      { type := "heartbeat_ack", request_id := msg.request_id, ts := now }
    .ok (cm1, db,
      Effect.redisHset "devices:online" device_id (toString now) ::
        send_to_device cm1 device_id response)
  else if msg.type == "capabilities" then
    .ok (cm, db,
      [Effect.redisHset ("device:capabilities:" ++ device_id) "streams"
         ((payload.streams).getD ""),
       Effect.redisHset ("device:capabilities:" ++ device_id) "last_updated"
         (toString now)])
  else if msg.type == "proxy_http_resp" then
    match payload.rid with
    | some rid =>
        if RedisClient.methodNames.contains "setex" then
          .ok (cm, db,
            [Effect.redisSetex ("proxy:response:" ++ rid) 30 payload])
        else
          .error (PyErr.attributeError "setex")
    | none =>
        .ok (cm, db,
          [Effect.logLine ("proxy_http_resp without rid from " ++ device_id)])
  else if msg.type == "signal_answer" then
    match db.findSession? payload.session_id with
    | some session =>
        .ok (cm, db, send_to_viewer cm (toString session.user_id)
          { type := "signal_answer", ts := now,
            payload := { session_id := payload.session_id, sdp := payload.sdp } })
    | none => .ok (cm, db, [])
  else if msg.type == "signal_ice" then
    match db.findSession? payload.session_id with
    | some session =>
        .ok (cm, db, send_to_viewer cm (toString session.user_id)
          { type := "signal_ice", ts := now,
            payload := { session_id := payload.session_id,
                         candidate := payload.candidate } })
    | none => .ok (cm, db, [])
  else if msg.type == "device_presence" then
    .ok (cm, db,
      [Effect.redisHset ("device:presence:" ++ device_id) "status"
         (toString (repr payload))])
  else
    .ok (cm, db, [])

/-- One iteration of the device websocket loop of main.py: run the handler;
a python exception is caught by the except branch, which disconnects the
device. -/
def deviceSocketStep (cm : ConnState) (db : DB) (device_id : String)
    (msg : Msg) (now : Nat) : ConnState × DB × List Effect :=
  match handle_device_message cm db device_id msg now with
  | .ok r => r
  | .error _ => disconnect_device cm db device_id now

/-! The viewer message router, from websocket_handler.py
(handle_viewer_message). The user id arrives as the decimal string of the
numeric user id; it is modeled as the Nat directly, rendered with toString
where the source uses the string. The fresh uuid4 session id is made
explicit as the parameter newSid. -/

/-- Translation of handle_viewer_message. -/
def handle_viewer_message (cm : ConnState) (db : DB) (user_id : Nat)
    (msg : Msg) (now : Nat) (newSid : String) : ConnState × DB × List Effect :=
  let payload := msg.payload
  if msg.type == "hello" then
    (cm, db, send_to_viewer cm (toString user_id)
      { type := "hello_ack", request_id := msg.request_id, ts := now,
        payload := { user_id := some (toString user_id),
                     server_time := some now } })
  else if msg.type == "heartbeat" then
    let cm1 := { cm with
      viewer_heartbeats := updMap cm.viewer_heartbeats (toString user_id) now }
    (cm1, db, send_to_viewer cm1 (toString user_id)
      { type := "heartbeat_ack", request_id := msg.request_id, ts := now })
  else if msg.type == "watch_request" then
    match db.findDevice? payload.device_id with
    | none =>
        (cm, db, send_to_viewer cm (toString user_id)
          { type := "error", request_id := msg.request_id, ts := now,
            payload := { message := some "Device not found" } })
    | some device =>
        if is_device_online cm device.device_id = false then
          (cm, db, send_to_viewer cm (toString user_id)
            { type := "error", request_id := msg.request_id, ts := now,
              payload := { message := some "Device is offline" } })
        else
          let session : WatchSessionRow :=
            { session_id := newSid, user_id := user_id,
              device_id := device.id, status := "pending" }
          let db1 := { db with sessions := db.sessions ++ [session] }
          let ice_servers := get_ice_servers now
            ("viewer_" ++ toString user_id ++ "_" ++ newSid) true
          let device_ice_servers := get_ice_servers now
            ("device_" ++ device.device_id ++ "_" ++ newSid) false
          (cm, db1,
            Effect.redisHset ("session:" ++ newSid) "data" (toString now) ::
            send_to_viewer cm (toString user_id)
              { type := "watch_ready", request_id := msg.request_id, ts := now,
                payload := { session_id := some newSid,
                             ice_servers := ice_servers } } ++
            send_to_device cm device.device_id
              { type := "watch_request", ts := now,
                payload := { session_id := some newSid,
                             user_id := some (toString user_id),
                             ice_servers := device_ice_servers } })
  else if msg.type == "signal_offer" then
    match db.findSession? payload.session_id with
    | some session =>
        let db1 := db.updateSession session.session_id
          (fun s => { s with status := "active" })
        match db1.findDeviceById? session.device_id with
        | some device =>
            (cm, db1, send_to_device cm device.device_id
              { type := "signal_offer", ts := now,
                payload := { session_id := payload.session_id,
                             sdp := payload.sdp } })
        | none =>
            (cm, db1, [Effect.logLine ("Device not found for session " ++
              session.session_id)])
    | none =>
        (cm, db, [Effect.logLine "Session not found"])
  else if msg.type == "signal_ice" then
    match db.findSession? payload.session_id with
    | some session =>
        match db.findDeviceById? session.device_id with
        | some device =>
            (cm, db, send_to_device cm device.device_id
              { type := "signal_ice", ts := now,
                payload := { session_id := payload.session_id,
                             candidate := payload.candidate } })
        | none => (cm, db, [])
    | none => (cm, db, [])
  else if msg.type == "end_watch" then
    match db.findSession? payload.session_id with
    | some session =>
        let db1 := db.updateSession session.session_id
          (fun s => { s with status := "ended", ended_at := some now,
                             ended_reason := some "user_ended" })
        let deviceEffs :=
          match db1.findDeviceById? session.device_id with
          | some device =>
              send_to_device cm device.device_id
                { type := "watch_ended", ts := now,
                  payload := { session_id := payload.session_id,
                               reason := some "user_ended" } }
          | none => []
        (cm, db1, deviceEffs ++
          [Effect.redisDelete ("session:" ++ session.session_id)])
    | none => (cm, db, [])
  else
    (cm, db, [])

/-! The tunneled-HTTP proxy frontend, from main.py (proxy_to_device). The
successive redis_client.get polls are modeled by a function from the
attempt index to the parsed stored response (none while the key is still
absent); 60 polls of half a second realize the 30 second deadline. -/

/-- Parsed content of a stored proxy response envelope. -/
structure ProxyResp where
  status : Nat
  headers : List (String × String)
  body_b64 : String
deriving DecidableEq, Repr

/-- First poll result among attempts 0..n-1, scanned in order. -/
def firstHit (stores : Nat → Option ProxyResp) : Nat → Option ProxyResp
  | 0 => none
  | n + 1 =>
      match firstHit stores n with
      | some r => some r
      | none => stores n

/-- Result of the proxy endpoint: an HTTPException status or a
reconstructed response. -/
inductive ProxyResult where
  | httpError (code : Nat)
  | httpResponse (status : Nat) (headers : List (String × String))
      (body : List Nat)
deriving DecidableEq, Repr

/-- The source polls range(60) with a 0.5 s sleep: up to 30 seconds. -/
def proxyPollAttempts : Nat := 60

/-- Translation of proxy_to_device from main.py. -/
def proxy_to_device (cm : ConnState) (device_id rid : String)
    (method fullPath : String) (reqHeaders : List (String × String))
    (body_b64 : Option String) (stores : Nat → Option ProxyResp)
    (now : Nat) : ProxyResult × List Effect :=
  if is_device_online cm device_id = false then
    (.httpError 503, [])
  else
    let env : Msg :=
      { type := "proxy_http", ts := now,
        payload := { rid := some rid, method := some method,
                     path := some fullPath, headers := reqHeaders,
                     body_b64 := body_b64, timeout_ms := some 30000 } }
    let sendEffs := send_to_device cm device_id env
    match firstHit stores proxyPollAttempts with
    | some r =>
        (.httpResponse r.status r.headers (b64decode r.body_b64),
          sendEffs ++ [Effect.redisDelete ("proxy:response:" ++ rid)])
    | none => (.httpError 504, sendEffs)

/-! The device agent reconnect loop, from device-agent/agent.py
(Go2RTCProxyAgent.connect and _handle_message). One iteration of the while
loop either fails to dial, or establishes the connection (sending hello,
entering CONNECTED and zeroing the attempt counter), runs the message loop
over the received frames, and then falls through to the reconnect arm,
which increments the counter and sleeps min(base * 2^(n-1), cap) + jitter
with base 1 and cap 30. Jitter is the uniform[0,1) random draw, made
explicit as a rational parameter. -/

/-- The ConnectionState enum of the agent. -/
inductive AgentConn where
  | disconnected
  | connecting
  | connected
  | reconnecting
  | stopping
deriving DecidableEq, Repr

/-- The agent state fields the reconnect logic touches. -/
structure AgentState where
  reconnect_attempts : Nat
  connstate : AgentConn
deriving DecidableEq, Repr

/-- reconnect_base of the agent. -/
def reconnect_base : Nat := 1

/-- max_reconnect_delay of the agent. -/
def max_reconnect_delay : Nat := 30

/-- The sleep computed in the reconnect arm: min(base * 2^(n-1), cap)
plus the jitter draw. -/
def backoffDelay (attempts : Nat) (jitter : Rat) : Rat :=
  min ((reconnect_base : Rat) * 2 ^ (attempts - 1))
    ((max_reconnect_delay : Rat)) + jitter

/-- Translation of Go2RTCProxyAgent._handle_message: hello_ack and
heartbeat_ack only log, proxy_http spawns a task, unknown types warn;
none of them touches the connection state or the attempt counter. -/
def agentHandleMessage (st : AgentState) (msgType : String) : AgentState :=
  if msgType == "hello_ack" then st
  else if msgType == "heartbeat_ack" then st
  else if msgType == "proxy_http" then st
  else st

/-- Outcome of one dial attempt of the connect loop. -/
inductive IterOutcome where
  | dialFailed
  | establishedThenClosed (msgs : List String)
deriving DecidableEq, Repr

/-- One iteration of the while loop of Go2RTCProxyAgent.connect, returning
the state after the reconnect arm and the sleep it computes. On a
successful dial the counter is zeroed at the CONNECTED transition, before
any message (hello_ack included) is handled. -/
def connectIter (st : AgentState) (outcome : IterOutcome) (jitter : Rat) :
    AgentState × Rat :=
  match outcome with
  | .dialFailed =>
      let a := st.reconnect_attempts + 1
      ({ st with connstate := .reconnecting, reconnect_attempts := a },
        backoffDelay a jitter)
  | .establishedThenClosed msgs =>
      let st1 := { st with connstate := .connected, reconnect_attempts := 0 }
      let st2 := msgs.foldl agentHandleMessage st1
      let a := st2.reconnect_attempts + 1
      ({ st2 with connstate := .reconnecting, reconnect_attempts := a },
        backoffDelay a jitter)

/-- The attempt counter as the claim words it: reset to zero on a
successful hello_ack from the hub (and only then), incremented at each
redial. Stated from the claim for comparison with connectIter. -/
def claimBackoffAttempts (attempts : Nat) (outcome : IterOutcome) : Nat :=
  match outcome with
  | .dialFailed => attempts + 1
  | .establishedThenClosed msgs =>
      (if msgs.contains "hello_ack" then 0 else attempts) + 1

/-! Concrete fixtures used by individual claim theorems. -/

/-- A manager state with one device channel for d1. -/
def c1cs : ConnState :=
  { ConnState.empty with
    device_connections := fun k => if k = "d1" then some 1 else none }

/-- A store with the single registered device d1, online. -/
def c1db : DB :=
  { devices := [{ id := 1, device_id := "d1", is_online := true,
                  last_seen := none }],
    sessions := [] }

/-- A proxy_http_resp device message carrying a rid. -/
def c1msg : Msg :=
  { type := "proxy_http_resp",
    payload := { rid := some "r-1", status := some 200, body_b64 := some "" } }

/-- A proxy_http_resp device message without a rid. -/
def c1msgNoRid : Msg :=
  { type := "proxy_http_resp", payload := { status := some 200 } }

/-- A manager state with a prior channel 1 for d1. -/
def c2cs : ConnState :=
  { ConnState.empty with
    device_connections := fun k => if k = "d1" then some 1 else none }

/-- A store with d1 registered and online. -/
def c2db : DB :=
  { devices := [{ id := 1, device_id := "d1", is_online := true,
                  last_seen := some 0 }],
    sessions := [] }

/-- A manager state with a device channel for d1. -/
def c3cs : ConnState :=
  { ConnState.empty with
    device_connections := fun k => if k = "d1" then some 1 else none }

/-- A store holding an already ended session s1 of viewer 7 on device 1. -/
def c3db : DB :=
  { devices := [{ id := 1, device_id := "d1", is_online := true,
                  last_seen := none }],
    sessions := [{ session_id := "s1", user_id := 7, device_id := 1,
                   status := "ended", ended_at := some 3,
                   ended_reason := some "user_ended" }] }

/-- A viewer signal_offer naming the ended session s1. -/
def c3msg : Msg :=
  { type := "signal_offer",
    payload := { session_id := some "s1", sdp := some "offer-sdp" } }

/-- A manager state with viewer 7 and device d-other connected. -/
def c4cs : ConnState :=
  { ConnState.empty with
    device_connections := fun k => if k = "d-other" then some 2 else none,
    viewer_connections := fun k => if k = "7" then some 5 else none }

/-- A store where session s1 is ended and refers to device row 1, while
the sender d-other is device row 2. -/
def c4db : DB :=
  { devices := [{ id := 1, device_id := "d1", is_online := true,
                  last_seen := none },
                { id := 2, device_id := "d-other", is_online := true,
                  last_seen := none }],
    sessions := [{ session_id := "s1", user_id := 7, device_id := 1,
                   status := "ended", ended_at := some 3,
                   ended_reason := some "user_ended" }] }

/-- A signal_answer from the mismatched device naming session s1. -/
def c4msg : Msg :=
  { type := "signal_answer",
    payload := { session_id := some "s1", sdp := some "answer-sdp" } }

/-- A manager state with device d1 and viewer 7 connected. -/
def c5cs : ConnState :=
  { ConnState.empty with
    device_connections := fun k => if k = "d1" then some 1 else none,
    viewer_connections := fun k => if k = "7" then some 5 else none }

/-- A store where viewer 7 has a pending session on device d1. -/
def c5db : DB :=
  { devices := [{ id := 1, device_id := "d1", is_online := true,
                  last_seen := some 0 }],
    sessions := [{ session_id := "sp", user_id := 7, device_id := 1,
                   status := "pending" }] }

/-- A manager state with device d1 connected, for the proxy witness. -/
def c6cs : ConnState :=
  { ConnState.empty with
    device_connections := fun k => if k = "d1" then some 1 else none }

/-- A poll trace where the response envelope appears at attempt 3. -/
def c6stores : Nat → Option ProxyResp := fun k =>
  if k = 3 then
    some { status := 200, headers := [("content-type", "text/plain")],
           body_b64 := "aGVsbG8=" }
  else none

/-- A backend whose every primitive raises. -/
def c9failBackend : Backend :=
  { bset := fun _ _ _ => .error "boom",
    bget := fun _ => .error "boom",
    bdel := fun _ => .error "boom",
    bexists := fun _ => .error "boom",
    bhset := fun _ _ _ => .error "boom",
    bhget := fun _ _ => .error "boom",
    bhdel := fun _ _ => .error "boom",
    bhgetall := fun _ => .error "boom" }

/-- A client connected to the failing backend. -/
def c9failClient : RedisClient :=
  { redis := some c9failBackend, memory := [], memoryHashes := [] }

/-- A manager state with viewer 7 connected and no devices. -/
def c10cs : ConnState :=
  { ConnState.empty with
    viewer_connections := fun k => if k = "7" then some 5 else none }

/-- A store with one registered device, none of them matching the request. -/
def c10db : DB :=
  { devices := [{ id := 1, device_id := "d1", is_online := true,
                  last_seen := none }],
    sessions := [] }

/-! Claim theorems. -/

/-- C1: the claim and the spec say a proxy_http_resp carrying a rid is
stored at proxy:response:rid with a 30 second TTL while the device
connection stays open. The code instead calls redis_client.setex, an
attribute RedisClient does not define, so the handler raises
AttributeError and the websocket loop of main.py reacts by disconnecting
the device: nothing is stored and the connection is torn down. The
rid-less branch behaves as claimed (a warning only, no state change). -/
theorem c1_proxy_http_resp_attribute_error :
    handle_device_message c1cs c1db "d1" c1msg 5 =
      .error (PyErr.attributeError "setex")
  ∧ (deviceSocketStep c1cs c1db "d1" c1msg 5).1.device_connections "d1" = none
  ∧ (deviceSocketStep c1cs c1db "d1" c1msg 5).2.1 =
      { devices := [{ id := 1, device_id := "d1", is_online := false,
                      last_seen := some 5 }],
        sessions := [] }
  ∧ (deviceSocketStep c1cs c1db "d1" c1msg 5).2.2 =
      [Effect.redisHdel "devices:online" ["d1"]]
  ∧ handle_device_message c1cs c1db "d1" c1msgNoRid 5 =
      .ok (c1cs, c1db, [Effect.logLine "proxy_http_resp without rid from d1"]) :=
  ⟨rfl, rfl, rfl, rfl, rfl⟩

/-- C2 counterexample: a second attach for a device with a live prior
channel emits only the presence hset; no close (in particular no
superseded close) of the prior channel is ever emitted, refuting the
claimed close-before-replace. -/
theorem c2_counterexample :
    c2cs.device_connections "d1" = some 1
  ∧ (connect_device c2cs c2db "d1" 2 7).2.2 =
      [Effect.redisHset "devices:online" "d1" "7"]
  ∧ ¬ (∃ e ∈ (connect_device c2cs c2db "d1" 2 7).2.2, e.isClose = true) := by
  refine ⟨rfl, rfl, ?_⟩
  rintro ⟨e, he, hc⟩
  have : e = Effect.redisHset "devices:online" "d1" "7" := by
    simpa [connect_device] using he
  subst this
  simp [Effect.isClose] at hc

/-- C2 amended: connect_device installs the new channel for the device id
(replacing any prior one, so the registry holds at most one channel per
device id), marks every row of that device online, and leaves other
registry entries untouched, but emits no close effect at all for the
replaced channel. -/
theorem c2_attach_replaces_without_close (cm : ConnState) (db : DB)
    (d : String) (ws now : Nat) :
    (connect_device cm db d ws now).1.device_connections d = some ws
  ∧ (∀ e ∈ (connect_device cm db d ws now).2.2, e.isClose = false)
  ∧ (∀ r ∈ (connect_device cm db d ws now).2.1.devices,
      r.device_id = d → r.is_online = true)
  ∧ (∀ x, x ≠ d →
      (connect_device cm db d ws now).1.device_connections x =
        cm.device_connections x) := by
  refine ⟨?_, ?_, ?_, ?_⟩
  · simp [connect_device, updMap]
  · intro e he
    have : e = Effect.redisHset "devices:online" d (toString now) := by
      simpa [connect_device] using he
    subst this
    rfl
  · intro r hr hd
    simp only [connect_device, DB.updateDevice, List.mem_map] at hr
    obtain ⟨a, _, rfl⟩ := hr
    by_cases h : (a.device_id == d) = true
    · simp [h]
    · simp [h] at hd ⊢
      exact absurd hd (by simpa using h)
  · intro x hx
    simp [connect_device, updMap, hx]

/-- C2 witness. -/
theorem c2_attach_replaces_without_close_witness :
    (connect_device c2cs c2db "d1" 2 7).1.device_connections "d1" = some 2
  ∧ (∀ r ∈ (connect_device c2cs c2db "d1" 2 7).2.1.devices,
      r.device_id = "d1" → r.is_online = true) :=
  ⟨(c2_attach_replaces_without_close c2cs c2db "d1" 2 7).1,
   (c2_attach_replaces_without_close c2cs c2db "d1" 2 7).2.2.1⟩

/-- C3 counterexample: a viewer signal_offer naming the already ended
session s1 is not dropped; the handler sets the session status back to
active, mutating the ended row, refuting the claimed terminal status. -/
theorem c3_counterexample :
    (c3db.findSession? (some "s1")).map (fun s => s.status) = some "ended"
  ∧ ((handle_viewer_message c3cs c3db 7 c3msg 9 "n-a").2.1.findSession?
      (some "s1")).map (fun s => s.status) = some "active" :=
  ⟨rfl, rfl⟩

/-- C3 amended: a signal_offer naming an unknown session is dropped with a
log line and changes nothing; a signal_offer naming any existing session,
whatever its status (ended included), sets that session status to active —
ended is not a terminal status under signal_offer — and the offer is then
forwarded to the session device only when its device row exists (the send
itself further requires the device channel to be registered); when the
device row is missing, only a log line is emitted. -/
theorem c3_signal_offer_behavior (cm : ConnState) (db : DB) (uid : Nat)
    (p : Payload) (now : Nat) (nsid : String) :
    (db.findSession? p.session_id = none →
      handle_viewer_message cm db uid { type := "signal_offer", payload := p }
          now nsid
        = (cm, db, [Effect.logLine "Session not found"]))
  ∧ (∀ s, db.findSession? p.session_id = some s →
      (handle_viewer_message cm db uid { type := "signal_offer", payload := p }
          now nsid).2.1
        = db.updateSession s.session_id (fun t => { t with status := "active" })
      ∧ (∀ device, db.findDeviceById? s.device_id = some device →
          (handle_viewer_message cm db uid
              { type := "signal_offer", payload := p } now nsid).2.2
            = send_to_device cm device.device_id
                { type := "signal_offer", ts := now,
                  payload := { session_id := p.session_id, sdp := p.sdp } })
      ∧ (db.findDeviceById? s.device_id = none →
          (handle_viewer_message cm db uid
              { type := "signal_offer", payload := p } now nsid).2.2
            = [Effect.logLine ("Device not found for session " ++
                s.session_id)])) := by
  constructor
  · intro h
    simp [handle_viewer_message, h]
  · intro s h
    refine ⟨?_, ?_, ?_⟩
    · simp only [handle_viewer_message, h]
      cases hd : (db.updateSession s.session_id
          (fun t => { t with status := "active" })).findDeviceById? s.device_id <;>
        simp [hd]
    · intro device hdev
      have hdev2 : (db.updateSession s.session_id
          (fun t => { t with status := "active" })).findDeviceById? s.device_id
          = some device := hdev
      simp [handle_viewer_message, h, hdev2]
    · intro hdev
      have hdev2 : (db.updateSession s.session_id
          (fun t => { t with status := "active" })).findDeviceById? s.device_id
          = none := hdev
      simp [handle_viewer_message, h, hdev2]

/-- C3 witness. -/
theorem c3_signal_offer_behavior_witness :
    (handle_viewer_message c3cs c3db 7 c3msg 9 "n-a").2.1
      = c3db.updateSession "s1" (fun t => { t with status := "active" })
  ∧ (handle_viewer_message c3cs c3db 7 c3msg 9 "n-a").2.2
      = send_to_device c3cs "d1"
          { type := "signal_offer", ts := 9,
            payload := { session_id := some "s1", sdp := some "offer-sdp" } } :=
  ⟨((c3_signal_offer_behavior c3cs c3db 7 c3msg.payload 9 "n-a").2
      { session_id := "s1", user_id := 7, device_id := 1, status := "ended",
        ended_at := some 3, ended_reason := some "user_ended" } rfl).1,
   ((c3_signal_offer_behavior c3cs c3db 7 c3msg.payload 9 "n-a").2
      { session_id := "s1", user_id := 7, device_id := 1, status := "ended",
        ended_at := some 3, ended_reason := some "user_ended" } rfl).2.1
     { id := 1, device_id := "d1", is_online := true, last_seen := none }
     rfl⟩

/-- C4 counterexample: a signal_answer from device d-other naming session
s1, whose status is ended and whose device ref is row 1 while the sender
is row 2, is still forwarded to the session viewer, refuting the claimed
status and device-ref guard. -/
theorem c4_counterexample :
    handle_device_message c4cs c4db "d-other" c4msg 9 =
      .ok (c4cs, c4db, [Effect.sendViewer "7"
        { type := "signal_answer", ts := 9,
          payload := { session_id := some "s1", sdp := some "answer-sdp" } }])
  ∧ (c4db.findSession? (some "s1")).map (fun s => s.status) = some "ended"
  ∧ (c4db.findSession? (some "s1")).map (fun s => s.device_id) = some 1
  ∧ (c4db.findDevice? (some "d-other")).map (fun r => r.id) = some 2 :=
  ⟨rfl, rfl, rfl, rfl⟩

/-- C4 amended: a device signal_answer or signal_ice is forwarded to the
viewer of the named session exactly when a session with that session_id
exists (the send itself further requires the viewer channel to be
registered); the session status and device ref are never consulted, and
the store is never changed; an unknown session is a silent drop. -/
theorem c4_signal_forward_iff_session (cm : ConnState) (db : DB)
    (did : String) (p : Payload) (now : Nat) :
    (db.findSession? p.session_id = none →
        handle_device_message cm db did { type := "signal_answer", payload := p }
            now = .ok (cm, db, [])
      ∧ handle_device_message cm db did { type := "signal_ice", payload := p }
            now = .ok (cm, db, []))
  ∧ (∀ s, db.findSession? p.session_id = some s →
        handle_device_message cm db did { type := "signal_answer", payload := p }
            now
          = .ok (cm, db, send_to_viewer cm (toString s.user_id)
              { type := "signal_answer", ts := now,
                payload := { session_id := p.session_id, sdp := p.sdp } })
      ∧ handle_device_message cm db did { type := "signal_ice", payload := p }
            now
          = .ok (cm, db, send_to_viewer cm (toString s.user_id)
              { type := "signal_ice", ts := now,
                payload := { session_id := p.session_id,
                             candidate := p.candidate } })) := by
  constructor
  · intro h
    exact ⟨by simp [handle_device_message, h], by simp [handle_device_message, h]⟩
  · intro s h
    exact ⟨by simp [handle_device_message, h], by simp [handle_device_message, h]⟩

/-- C4 witness. -/
theorem c4_signal_forward_iff_session_witness :
    handle_device_message c4cs c4db "d-other"
        { type := "signal_ice", payload := c4msg.payload } 9
      = .ok (c4cs, c4db, send_to_viewer c4cs "7"
          { type := "signal_ice", ts := 9,
            payload := { session_id := some "s1", candidate := none } }) :=
  ((c4_signal_forward_iff_session c4cs c4db "d-other" c4msg.payload 9).2
    { session_id := "s1", user_id := 7, device_id := 1, status := "ended",
      ended_at := some 3, ended_reason := some "user_ended" } rfl).2

/-- Helper: find? commutes with a map that preserves the predicate. -/
theorem find?_map_preserve {α : Type} (l : List α) (p : α → Bool) (g : α → α)
    (h : ∀ a, p (g a) = p a) : (l.map g).find? p = (l.find? p).map g := by
  induction l with
  | nil => rfl
  | cons a t ih =>
      cases hp : p a with
      | true =>
          rw [List.map_cons, List.find?_cons_of_pos _ ((h a).trans hp),
              List.find?_cons_of_pos _ hp]
          rfl
      | false =>
          rw [List.map_cons, List.find?_cons_of_neg _ (by simp [h a, hp]),
              List.find?_cons_of_neg _ (by simp [hp]), ih]

/-- Helper: looking a device up by its device_id string after updateDevice
on the same string returns the updated row. -/
theorem findDevice?_updateDevice (db : DB) (d : String)
    (f : DeviceRow → DeviceRow) (hf : ∀ r, (f r).device_id = r.device_id) :
    (db.updateDevice d f).findDevice? (some d)
      = (db.findDevice? (some d)).map (fun r => if r.device_id == d then f r else r) := by
  simp only [DB.findDevice?, DB.updateDevice]
  exact find?_map_preserve db.devices _ _
    (fun a => by by_cases h : (a.device_id == d) = true <;> simp [h, hf a])

/-- Helper: the device rows after disconnect_device are those of the
offline-marking update, in every branch. -/
theorem disconnect_device_devices (cm : ConnState) (db : DB) (d : String)
    (now : Nat) :
    (disconnect_device cm db d now).2.1.devices =
      (db.updateDevice d
        (fun r => { r with is_online := false, last_seen := some now })).devices := by
  simp only [disconnect_device]
  cases (db.updateDevice d
      (fun r => { r with is_online := false, last_seen := some now })).findDevice?
        (some d) <;> rfl

/-- C5 counterexample: device d1 detaches while viewer 7 has a pending
session on it; the pending session is left pending (not ended with reason
device_disconnected) and no watch_ended notification is sent, refuting
the claim for pending sessions. -/
theorem c5_counterexample :
    ((disconnect_device c5cs c5db "d1" 50).2.1.findSession? (some "sp")).map
        (fun s => s.status) = some "pending"
  ∧ some "pending" ≠ some "ended"
  ∧ (disconnect_device c5cs c5db "d1" 50).2.2 =
      [Effect.redisHdel "devices:online" ["d1"]] := by
  refine ⟨rfl, by simp, rfl⟩

/-- C5 amended: when a device detaches, the registry entry is dropped,
every row of that device is marked offline with last_seen now, and exactly
the sessions referencing the device in status active are transitioned to
ended with reason device_disconnected and ended_at now, their viewers
being sent watch_ended when their channel is registered; pending sessions
are left untouched. When the device has no row, no session changes. -/
theorem c5_detach_fanout (cm : ConnState) (db : DB) (d : String) (now : Nat) :
    (disconnect_device cm db d now).1.device_connections d = none
  ∧ (∀ r ∈ (disconnect_device cm db d now).2.1.devices,
      r.device_id = d → r.is_online = false ∧ r.last_seen = some now)
  ∧ (∀ drow, db.findDevice? (some d) = some drow →
      (disconnect_device cm db d now).2.1.sessions =
        db.sessions.map (fun s =>
          if s.device_id == drow.id && s.status == "active" then
            { s with status := "ended", ended_at := some now,
                     ended_reason := some "device_disconnected" }
          else s)
      ∧ (disconnect_device cm db d now).2.2 =
          Effect.redisHdel "devices:online" [d] ::
            (db.sessions.filter
                (fun s => s.device_id == drow.id && s.status == "active")).flatMap
              (fun s =>
                match cm.viewer_connections (toString s.user_id) with
                | some _ => send_to_viewer cm (toString s.user_id)
                    { type := "watch_ended", ts := now,
                      payload := { session_id := some s.session_id,
                                   reason := some "device_disconnected" } }
                | none => []))
  ∧ (db.findDevice? (some d) = none →
      (disconnect_device cm db d now).2.1.sessions = db.sessions
      ∧ (disconnect_device cm db d now).2.2 =
          [Effect.redisHdel "devices:online" [d]]) := by
  have hup : (db.updateDevice d
      (fun r => { r with is_online := false, last_seen := some now })).findDevice?
        (some d)
      = (db.findDevice? (some d)).map
          (fun r => if r.device_id == d then
            { r with is_online := false, last_seen := some now } else r) :=
    findDevice?_updateDevice db d _ (fun r => rfl)
  refine ⟨?_, ?_, ?_, ?_⟩
  · simp only [disconnect_device, hup]
    cases db.findDevice? (some d) <;> simp [delMap]
  · intro r hr hd
    rw [disconnect_device_devices] at hr
    have hr2 := hr
    simp only [DB.updateDevice, List.mem_map] at hr2
    obtain ⟨a, _, rfl⟩ := hr2
    by_cases h : (a.device_id == d) = true
    · simp [h]
    · simp [h] at hd ⊢
      exact absurd hd (by simpa using h)
  · intro drow hdev
    have : (db.findDevice? (some d)).map
        (fun r => if r.device_id == d then
          { r with is_online := false, last_seen := some now } else r)
        = some { drow with is_online := false, last_seen := some now } := by
      have hpd : drow.device_id = d := by
        have hfind : db.devices.find? (fun r => r.device_id == d) = some drow := by
          simpa [DB.findDevice?] using hdev
        simpa using List.find?_some hfind
      simp [hdev, hpd]
    constructor
    · simp only [disconnect_device, hup, this]
      rfl
    · simp only [disconnect_device, hup, this]
      rfl
  · intro hdev
    constructor
    · simp only [disconnect_device, hup, hdev]
      rfl
    · simp only [disconnect_device, hup, hdev]
      rfl

/-- C5 witness. -/
theorem c5_detach_fanout_witness :
    (disconnect_device c5cs c5db "d1" 50).1.device_connections "d1" = none
  ∧ (disconnect_device c5cs c5db "d1" 50).2.1.sessions =
      c5db.sessions.map (fun s =>
        if s.device_id == 1 && s.status == "active" then
          { s with status := "ended", ended_at := some 50,
                   ended_reason := some "device_disconnected" }
        else s) :=
  ⟨(c5_detach_fanout c5cs c5db "d1" 50).1,
   ((c5_detach_fanout c5cs c5db "d1" 50).2.2.1
     { id := 1, device_id := "d1", is_online := true, last_seen := some 0 }
     rfl).1⟩

/-- C6: the proxy endpoint answers 503 without sending anything when the
registry has no channel for the device; otherwise it sends the proxy_http
envelope carrying the rid and polls the store for proxy:response:rid over
60 half-second attempts (the 30 second deadline): on arrival it returns
the recorded status and headers with the base64-decoded body and deletes
the key, and on exhaustion it answers 504. -/
theorem c6_proxy_endpoint (cm : ConnState) (did rid method fullPath : String)
    (reqHeaders : List (String × String)) (body_b64 : Option String)
    (stores : Nat → Option ProxyResp) (now : Nat) :
    (is_device_online cm did = false →
      proxy_to_device cm did rid method fullPath reqHeaders body_b64 stores now
        = (.httpError 503, []))
  ∧ (∀ w, cm.device_connections did = some w →
      (∀ r, firstHit stores proxyPollAttempts = some r →
        proxy_to_device cm did rid method fullPath reqHeaders body_b64 stores now
          = (.httpResponse r.status r.headers (b64decode r.body_b64),
             [Effect.sendDevice did
                { type := "proxy_http", ts := now,
                  payload := { rid := some rid, method := some method,
                               path := some fullPath, headers := reqHeaders,
                               body_b64 := body_b64,
                               timeout_ms := some 30000 } },
              Effect.redisDelete ("proxy:response:" ++ rid)]))
      ∧ (firstHit stores proxyPollAttempts = none →
        proxy_to_device cm did rid method fullPath reqHeaders body_b64 stores now
          = (.httpError 504,
             [Effect.sendDevice did
                { type := "proxy_http", ts := now,
                  payload := { rid := some rid, method := some method,
                               path := some fullPath, headers := reqHeaders,
                               body_b64 := body_b64,
                               timeout_ms := some 30000 } }]))) := by
  refine ⟨?_, ?_⟩
  · intro h
    simp [proxy_to_device, h]
  · intro w hw
    have honline : is_device_online cm did = true := by
      simp [is_device_online, hw]
    constructor
    · intro r hr
      simp [proxy_to_device, honline, send_to_device, hw, hr]
    · intro hr
      simp [proxy_to_device, honline, send_to_device, hw, hr]

/-- C6 witness. -/
theorem c6_proxy_endpoint_witness :
    proxy_to_device ConnState.empty "d1" "r-9" "GET" "/api/streams" [] none
        c6stores 4
      = (.httpError 503, [])
  ∧ proxy_to_device c6cs "d1" "r-9" "GET" "/api/streams" [] none c6stores 4
      = (.httpResponse 200 [("content-type", "text/plain")]
           [104, 101, 108, 108, 111],
         [Effect.sendDevice "d1"
            { type := "proxy_http", ts := 4,
              payload := { rid := some "r-9", method := some "GET",
                           path := some "/api/streams", headers := [],
                           body_b64 := none, timeout_ms := some 30000 } },
          Effect.redisDelete "proxy:response:r-9"]) := by
  constructor
  · exact (c6_proxy_endpoint ConnState.empty "d1" "r-9" "GET" "/api/streams"
      [] none c6stores 4).1 rfl
  · exact ((c6_proxy_endpoint c6cs "d1" "r-9" "GET" "/api/streams"
      [] none c6stores 4).2 1 rfl).1
        { status := 200, headers := [("content-type", "text/plain")],
          body_b64 := "aGVsbG8=" } (by decide) |>.trans (by decide)

/-- C7: the minted credentials consist of the username
expiry:principal with expiry the integer clock plus the TTL (default
86400), the credential base64(HMAC-SHA1(secret, username)), and the two
TURN urls udp and tcp for the host selected by the public flag; the
output is a function of the integer second and the principal alone. -/
theorem c7_turn_credentials (now : Nat) (principal : String)
    (use_public_host : Bool) :
    generate_turn_credentials now principal use_public_host =
      { urls := ["turn:" ++ (if use_public_host then TURN_PUBLIC_HOST
                   else TURN_HOST) ++ ":" ++ toString TURN_PORT ++
                   "?transport=udp",
                 "turn:" ++ (if use_public_host then TURN_PUBLIC_HOST
                   else TURN_HOST) ++ ":" ++ toString TURN_PORT ++
                   "?transport=tcp"],
        username := toString (now + TURN_TTL) ++ ":" ++ principal,
        credential := b64encode (hmacSha1 (strBytes TURN_SECRET)
          (strBytes (toString (now + TURN_TTL) ++ ":" ++ principal))),
        credentialType := "password" }
  ∧ TURN_TTL = 86400
  ∧ (∀ now2 principal2, now2 = now → principal2 = principal →
      generate_turn_credentials now2 principal2 use_public_host =
        generate_turn_credentials now principal use_public_host) := by
  refine ⟨rfl, rfl, ?_⟩
  intro now2 principal2 h1 h2
  rw [h1, h2]

set_option maxRecDepth 100000 in
/-- C7 witness. -/
theorem c7_turn_credentials_witness :
    generate_turn_credentials 0 "alice" false =
      generate_turn_credentials 0 "alice" false
  ∧ (generate_turn_credentials 0 "alice" false).credential =
      "l14HZJl0VX/H1XcekVU3MzMM6lI=" :=
  ⟨(c7_turn_credentials 0 "alice" false).2.2 0 "alice" rfl rfl, by decide⟩

/-- Helper: the agent message handler leaves the modeled state unchanged
for every message type. -/
theorem agentHandleMessage_eq (st : AgentState) (m : String) :
    agentHandleMessage st m = st := by
  simp [agentHandleMessage]

/-- Helper: folding the agent message handler over any frame list leaves
the state unchanged. -/
theorem foldl_agentHandleMessage (msgs : List String) (st : AgentState) :
    msgs.foldl agentHandleMessage st = st := by
  induction msgs generalizing st with
  | nil => rfl
  | cons m t ih => simp [List.foldl_cons, agentHandleMessage_eq, ih]

/-- C8 counterexample: with 3 accumulated failed attempts, a dial that
establishes the connection (hello sent) but closes before any hello_ack
leads the code to sleep min(2^0,30) = 1 second (the counter was zeroed at
establishment), while the claim formula, whose counter is reset only by
hello_ack, prescribes min(2^3,30) = 8 seconds. -/
theorem c8_counterexample :
    (connectIter { reconnect_attempts := 3, connstate := AgentConn.connected }
        (IterOutcome.establishedThenClosed []) 0).2 = 1
  ∧ backoffDelay (claimBackoffAttempts 3 (IterOutcome.establishedThenClosed []))
      0 = 8
  ∧ (1 : Rat) ≠ 8 := by
  refine ⟨?_, ?_, by norm_num⟩
  · show backoffDelay 1 0 = 1
    unfold backoffDelay
    norm_num [reconnect_base, max_reconnect_delay, min_def]
  · show backoffDelay 4 0 = 8
    unfold backoffDelay
    norm_num [reconnect_base, max_reconnect_delay, min_def]

/-- C8 amended: every redial sleeps min(1 * 2^(n-1), 30) + jitter where n
is the attempt counter after the iteration; n increments on a failed dial
and is reset to zero as soon as the connection is established (right after
hello is sent), not upon hello_ack, so any established iteration redials
with n = 1 regardless of the frames received. -/
theorem c8_backoff_behavior (st : AgentState) (o : IterOutcome) (j : Rat) :
    (connectIter st o j).2 =
      backoffDelay (connectIter st o j).1.reconnect_attempts j
  ∧ (o = IterOutcome.dialFailed →
      (connectIter st o j).1.reconnect_attempts = st.reconnect_attempts + 1)
  ∧ (∀ msgs, o = IterOutcome.establishedThenClosed msgs →
      (connectIter st o j).1.reconnect_attempts = 1)
  ∧ (∀ n, backoffDelay n j =
      min ((1 : Rat) * 2 ^ (n - 1)) 30 + j) := by
  refine ⟨?_, ?_, ?_, ?_⟩
  · cases o with
    | dialFailed => rfl
    | establishedThenClosed msgs => simp [connectIter, foldl_agentHandleMessage]
  · intro h
    subst h
    rfl
  · intro msgs h
    subst h
    simp [connectIter, foldl_agentHandleMessage]
  · intro n
    rfl

/-- C8 witness. -/
theorem c8_backoff_behavior_witness :
    (connectIter { reconnect_attempts := 2, connstate := AgentConn.disconnected }
        IterOutcome.dialFailed 0).1.reconnect_attempts = 2 + 1 :=
  (c8_backoff_behavior
    { reconnect_attempts := 2, connstate := AgentConn.disconnected }
    IterOutcome.dialFailed 0).2.1 rfl

/-- C9: every public presence-store operation is total by construction and
returns its failure default instead of propagating the error whenever the
underlying redis primitive raises: false for set, delete, hset, hdel and
exists, none for get and hget, the empty mapping for hgetall. -/
theorem c9_redis_failure_defaults (c : RedisClient) (b : Backend) (e : String)
    (key value name : String) (ex : Option Nat) (keys : List String) :
    (c.redis = some b → b.bset key value ex = .error e →
      (c.set key value ex).1 = false)
  ∧ (c.redis = some b → b.bget key = .error e → c.get key = none)
  ∧ (c.redis = some b → b.bdel key = .error e → (c.delete key).1 = false)
  ∧ (c.redis = some b → b.bexists key = .error e → c.keyExists key = false)
  ∧ (c.redis = some b → b.bhset name key value = .error e →
      (c.hset name key value).1 = false)
  ∧ (c.redis = some b → b.bhget name key = .error e → c.hget name key = none)
  ∧ (c.redis = some b → b.bhdel name keys = .error e →
      (c.hdel name keys).1 = false)
  ∧ (c.redis = some b → b.bhgetall name = .error e → c.hgetall name = []) := by
  refine ⟨?_, ?_, ?_, ?_, ?_, ?_, ?_, ?_⟩ <;>
    · intro h1 h2
      simp [RedisClient.set, RedisClient.get, RedisClient.delete,
        RedisClient.keyExists, RedisClient.hset, RedisClient.hget,
        RedisClient.hdel, RedisClient.hgetall, h1, h2]

/-- C9 witness. -/
theorem c9_redis_failure_defaults_witness :
    (c9failClient.set "k" "v" none).1 = false
  ∧ c9failClient.get "k" = none
  ∧ (c9failClient.delete "k").1 = false
  ∧ c9failClient.keyExists "k" = false
  ∧ (c9failClient.hset "h" "k" "v").1 = false
  ∧ c9failClient.hget "h" "k" = none
  ∧ (c9failClient.hdel "h" ["k"]).1 = false
  ∧ c9failClient.hgetall "h" = [] := by
  have t := c9_redis_failure_defaults c9failClient c9failBackend "boom"
    "k" "v" "h" none ["k"]
  exact ⟨t.1 rfl rfl, t.2.1 rfl rfl, t.2.2.1 rfl rfl, t.2.2.2.1 rfl rfl,
    t.2.2.2.2.1 rfl rfl, t.2.2.2.2.2.1 rfl rfl, t.2.2.2.2.2.2.1 rfl rfl,
    t.2.2.2.2.2.2.2 rfl rfl⟩

/-- C10: a viewer watch_request whose payload lacks a device_id, or names
one with no device row, is answered with the error message Device not
found; the store is unchanged (no session row is created), nothing is sent
to any device, no channel is closed, and the manager state is untouched. -/
theorem c10_watch_request_unknown_device (cm : ConnState) (db : DB)
    (uid : Nat) (p : Payload) (rqid : Option String) (now : Nat)
    (nsid : String) (h : db.findDevice? p.device_id = none) :
    handle_viewer_message cm db uid
        { type := "watch_request", request_id := rqid, payload := p } now nsid
      = (cm, db, send_to_viewer cm (toString uid)
          { type := "error", request_id := rqid, ts := now,
            payload := { message := some "Device not found" } })
  ∧ ∀ e ∈ (handle_viewer_message cm db uid
        { type := "watch_request", request_id := rqid, payload := p }
        now nsid).2.2,
      (∀ dv m, e ≠ Effect.sendDevice dv m) ∧ e.isClose = false := by
  have hmain : handle_viewer_message cm db uid
      { type := "watch_request", request_id := rqid, payload := p } now nsid
      = (cm, db, send_to_viewer cm (toString uid)
          { type := "error", request_id := rqid, ts := now,
            payload := { message := some "Device not found" } }) := by
    simp [handle_viewer_message, h]
  refine ⟨hmain, ?_⟩
  intro e he
  rw [hmain] at he
  simp only [send_to_viewer] at he
  cases hv : cm.viewer_connections (toString uid) with
  | none => rw [hv] at he; simp at he
  | some w =>
      rw [hv] at he
      simp at he
      subst he
      exact ⟨fun dv m => by simp, rfl⟩

/-- C10 witness. -/
theorem c10_watch_request_unknown_device_witness :
    handle_viewer_message c10cs c10db 7
        { type := "watch_request", payload := {} } 4 "s-new"
      = (c10cs, c10db, [Effect.sendViewer "7"
          { type := "error", ts := 4,
            payload := { message := some "Device not found" } }]) :=
  ((c10_watch_request_unknown_device c10cs c10db 7 {} none 4 "s-new"
    rfl).1).trans rfl

end MuCam
